import Mathlib

/-!
Shallow embedding of `src/main.py` (Conversation Agent Reference Application,
version 2.0), a terminal chat client: a turn-based main loop that classifies
user input as a command or chat content, queries a completion endpoint with
the accumulated conversation history, renders the (streamed) reply, and on
shutdown saves the transcript to a numbered log file.

Modelling conventions:
- Python dict records become structures; the `application` dict's `command`
  and `state` fields and the `model` dict's `conversation_history` field are
  gathered into one `LoopState`.
- Terminal input and the remote completion endpoint are the environment: a
  run is driven by a script of `(user_input, GatewayOutcome)` pairs, where a
  `GatewayOutcome` is either the list of streamed chunk delta-contents or the
  exception message raised by the API call.
- A Python value that may be `None` is an `Option`; `py_str` is Python's
  f-string rendering of such a value (`None` prints as `"None"`).
- An uncaught Python exception is modelled by `Except.error`, carrying the
  program state (in particular the conversation history) at the moment the
  exception escapes `main_loop`.
- The log directory is modelled by the list of numeric suffixes `i` for which
  the file `chat_log_<i>.txt` currently exists (`os.path.exists` on the
  composed name is membership in that list, the composition being injective
  in `i`).
-/

namespace ConversationAgent

/-- A single conversation message: the dict `{ 'role': r, 'content': c }`.
The content is an `Option String` because the program can store Python
`None` as content (see `main_loop_init`). -/
structure Message where
  role : String
  content : Option String
deriving Repr, DecidableEq

/-- Python f-string rendering of a possibly-`None` string value. -/
def py_str : Option String → String
  | some s => s
  | none => "None"

/-- Python `str` of a boolean. -/
def py_str_bool (b : Bool) : String :=
  if b then "True" else "False"

/-- Python `str.lower` (per-character lowering; the command tokens are
ASCII, where this coincides exactly with CPython's `str.lower`). -/
def py_lower (s : String) : String :=
  String.mk (s.data.map Char.toLower)

/-! Global constants of `main.py`. -/

def APPLICATION_STATE_IDLE : Nat := 0
def APPLICATION_STATE_RUNNING : Nat := 1
def APPLICATION_STATE_STOPPED : Nat := 2

def APPLICATION_COMMAND_NONE : Nat := 0
def APPLICATION_COMMAND_EXIT : Nat := 1
def APPLICATION_COMMAND_CLEAR_TERMINAL : Nat := 2

def PROMPT_COMMAND_EXIT : String := "exit"
def PROMPT_COMMAND_CLEAR : String := "clear"

def MODEL_MESSAGE_ROLE_SYSTEM : String := "system"
def MODEL_MESSAGE_ROLE_USER : String := "user"
def MODEL_MESSAGE_ROLE_AI : String := "assistant"

def MODEL_SYSTEM_PROMPT_DEFAULT : String :=
  "You are a general purpose AI assistant. You always provide well-reasoned answers that are both correct and helpful."

def TERMINAL_BULLET : String := "- "

/-- Values set in `application_initialize`: `KEY_MODEL_STREAMING_ENABLED` is
`True` in this version. -/
def model_streaming_enabled_default : Bool := true

/-- Configuration strings set in `application_initialize` and used for the
chat-log header. The version `2.0` and temperature `0.7` are floats in the
source; the embedding carries their Python decimal renderings. -/
def application_name_default : String := "Conversation Agent Reference Application"
def application_version_default : String := "2.0"
def model_name_default : String := "gpt-3.5-turbo"
def model_max_tokens_default : Nat := 1024
def model_temperature_default : String := "0.7"

/-- The function `get_application_command`: normalize the user prompt to
lower case and translate it to an application-command code. -/
def get_application_command (user_prompt : String) : Nat :=
  let user_prompt' := py_lower user_prompt
  if user_prompt' = PROMPT_COMMAND_EXIT then
    APPLICATION_COMMAND_EXIT
  else if user_prompt' = PROMPT_COMMAND_CLEAR then
    APPLICATION_COMMAND_CLEAR_TERMINAL
  else
    APPLICATION_COMMAND_NONE

/-- What the remote completion call does on a given turn: either it succeeds,
delivering the streamed chunks' delta contents in arrival order (`stream` is
`True` in this version; a chunk whose `delta.content` is `None` is recorded
as `""`, which the renderer treats identically), or the client library raises
an exception whose `str` is the carried message. -/
inductive GatewayOutcome where
  | ok : List String → GatewayOutcome
  | exn : String → GatewayOutcome
deriving Repr, DecidableEq

/-- The value returned by `query_language_model`: the streamed response
object on success (`stream=True`), a complete-response object when streaming
is disabled, or — from the `except` branch — a plain Python string holding
the formatted error text. -/
inductive GatewayResult where
  | streamed : List String → GatewayResult
  | complete : String → GatewayResult
  | errorText : String → GatewayResult
deriving Repr, DecidableEq

/-- The function `query_language_model`: performs the completion call with
`stream = True` (the configured value) and returns the response object; on
exception `e` it returns the string `f'\n[ERROR]\n{str(e)}\n'`. -/
def query_language_model : GatewayOutcome → GatewayResult
  | .ok fragments => .streamed fragments
  | .exn e => .errorText ("\n[ERROR]\n" ++ e ++ "\n")

/-- The streaming loop of `render_language_model_response`: starting from an
empty accumulator, each chunk with truthy (non-empty) content is printed and
appended to the accumulator; falsy chunks are skipped entirely. Returns the
accumulated response text together with the list of printed chunks. -/
def render_streamed_body (acc : String × List String) (chunk : String) : String × List String :=
  if chunk ≠ "" then (acc.1 ++ chunk, acc.2 ++ [chunk]) else acc

def render_streamed (fragments : List String) : String × List String :=
  fragments.foldl render_streamed_body ("", [])

/-- The function `render_language_model_response`, with its terminal printing
abstracted to the list of printed chunks. `none` models an uncaught Python
exception: when the gateway failed, `model_response` is the error *string*;
with streaming enabled the `for chunk in model_response` loop iterates the
string's characters and `chunk.choices` raises `AttributeError` on the first
character (an empty string would skip the loop body); with streaming disabled
`model_response.choices` raises `AttributeError` directly. -/
def render_language_model_response (streaming_enabled : Bool) :
    GatewayResult → Option (String × List String)
  | .streamed fragments =>
      if streaming_enabled then some (render_streamed fragments) else none
  | .complete text =>
      if streaming_enabled then none else some (text, [text])
  | .errorText s =>
      if streaming_enabled then
        if s = "" then some ("", []) else none
      else none

/-- The mutable state threaded through `main_loop`: the `application` dict's
`KEY_APPLICATION_COMMAND` and `KEY_APPLICATION_STATE` entries and the `model`
dict's `KEY_MODEL_CONVERSATION_HISTORY` entry. -/
structure LoopState where
  command : Nat
  state : Nat
  history : List Message
deriving Repr, DecidableEq

/-- The function `add_message_to_conversation_history`: append one message
dict to the history list. -/
def add_message_to_conversation_history
    (history : List Message) (message : Option String) (message_role : String) :
    List Message :=
  history ++ [{ role := message_role, content := message }]

/-- The function `execute_application_command`: `EXIT` stops the main loop,
`CLEAR_TERMINAL` only issues an OS clear-screen command (a terminal side
effect, invisible in this state), and in all cases the pending command is
reset to `APPLICATION_COMMAND_NONE` afterwards. -/
def execute_application_command (st : LoopState) : LoopState :=
  let st1 :=
    if st.command = APPLICATION_COMMAND_EXIT then
      { st with state := APPLICATION_STATE_STOPPED }
    else
      st
  { st1 with command := APPLICATION_COMMAND_NONE }

/-- One iteration of the `while` loop in `main_loop`, driven by the user
input read from the terminal and the gateway outcome for this turn. On a
non-command input the user message is appended, the model is queried and
rendered, and the assistant message is appended; a `none` from the renderer
is an uncaught exception, so `Except.error` carries the state at the crash
(the command was stored, the user message appended, nothing else). -/
def main_loop_step (st : LoopState) (user_input : String) (gw : GatewayOutcome) :
    Except LoopState LoopState :=
  let command := get_application_command user_input
  if command = APPLICATION_COMMAND_NONE then
    let history1 := add_message_to_conversation_history st.history (some user_input) MODEL_MESSAGE_ROLE_USER
    match render_language_model_response model_streaming_enabled_default (query_language_model gw) with
    | none =>
        Except.error { command := command, state := st.state, history := history1 }
    | some rendered =>
        Except.ok (execute_application_command
          { command := command, state := st.state,
            history := add_message_to_conversation_history history1 (some rendered.1) MODEL_MESSAGE_ROLE_AI })
  else
    Except.ok (execute_application_command { st with command := command })

/-- The `while` loop of `main_loop`, run over a (long enough) script of
terminal inputs and gateway outcomes; it stops as soon as the application
state leaves `APPLICATION_STATE_RUNNING`, and propagates a crash. -/
def main_loop_run : LoopState → List (String × GatewayOutcome) → Except LoopState LoopState
  | st, [] => Except.ok st
  | st, (user_input, gw) :: rest =>
    if st.state = APPLICATION_STATE_RUNNING then
      match main_loop_step st user_input gw with
      | Except.error e => Except.error e
      | Except.ok st' => main_loop_run st' rest
    else
      Except.ok st

/-- The system-prompt value computed at the top of `main_loop`.
`load_result` is what `load_text_to_string MODEL_SYSTEM_PROMPT_FILE_NAME`
returned: `some text` when the file was read, `none` when an exception was
caught (the function prints a diagnostic and falls through, returning Python
`None`). The source then tests `model_system_prompt == ''`; the Python
comparison `None == ''` is `False`, so only the `some ""` case falls back to
the default. -/
def system_prompt_of (load_result : Option String) : Option String :=
  match load_result with
  | some text => if text = "" then some MODEL_SYSTEM_PROMPT_DEFAULT else some text
  | none => none

/-- The initialisation part of `main_loop`: load the system prompt, append
the system message to the (empty) conversation history, and set the command
to `NONE` and the state to `RUNNING`. -/
def main_loop_init (load_result : Option String) : LoopState :=
  { command := APPLICATION_COMMAND_NONE,
    state := APPLICATION_STATE_RUNNING,
    history := add_message_to_conversation_history [] (system_prompt_of load_result) MODEL_MESSAGE_ROLE_SYSTEM }

/-- The program state carried by either side of an `Except` result: the state
on normal completion, or the state at the moment an exception escaped. -/
def except_state : Except LoopState LoopState → LoopState
  | Except.ok st => st
  | Except.error st => st

/-- The state in which `main_loop` left the program, whether the loop ended
normally (`ok`) or an exception escaped (`error`). -/
def run_final (st : LoopState) (script : List (String × GatewayOutcome)) : LoopState :=
  except_state (main_loop_run st script)

/-! The transcript logger, `save_chat_log_to_file`. -/

/-- The `while os.path.exists(...)` probe of `save_chat_log_to_file`, with
explicit fuel (the source loop terminates because the directory is finite).
`occupied` is the list of numeric suffixes whose log file exists. -/
def probe_file_index (occupied : List Nat) : Nat → Nat → Nat
  | 0, file_index => file_index
  | fuel + 1, file_index =>
    if file_index ∈ occupied then probe_file_index occupied fuel (file_index + 1) else file_index

/-- The file index selected by `save_chat_log_to_file`: start at 0 and
increment while the corresponding file exists. `occupied.length + 1` probes
always suffice, because the `occupied.length + 1` distinct indices
`0 .. occupied.length` cannot all lie in a list of that length. -/
def next_log_file_index (occupied : List Nat) : Nat :=
  probe_file_index occupied (occupied.length + 1) 0

/-- Concatenation of a list of strings in order (Python `+=` accumulation /
the spec's notion of fragment concatenation). -/
def concat_strings : List String → String
  | [] => ""
  | s :: rest => s ++ concat_strings rest

/-- One transcript row as written by `save_chat_log_to_file`:
`f'[{row["role"]}]\n{row["content"]}\n\n'`. -/
def format_message (m : Message) : String :=
  "[" ++ m.role ++ "]\n" ++ py_str m.content ++ "\n\n"

/-- The row-writing loop of `save_chat_log_to_file`: a row is written when
`row_index > 0`, or when `row_index == 0` and the system prompt is to be
included. -/
def write_history_rows : List Message → Nat → Bool → String
  | [], _, _ => ""
  | row :: rest, row_index, include_system_prompt_enabled =>
    (if row_index > 0 then
      format_message row
    else if row_index = 0 ∧ include_system_prompt_enabled then
      format_message row
    else
      "") ++ write_history_rows rest (row_index + 1) include_system_prompt_enabled

/-- The header block written by `save_chat_log_to_file` (field values as
their Python f-string renderings). -/
def chat_log_header (application_name application_version model_name : String)
    (model_max_tokens : Nat) (model_temperature : String)
    (model_streaming_enabled : Bool) : String :=
  "\nApplication:\n" ++
  TERMINAL_BULLET ++ "Name:    " ++ application_name ++ "\n" ++
  TERMINAL_BULLET ++ "Version: " ++ application_version ++ "\n" ++
  "\nModel:\n" ++
  TERMINAL_BULLET ++ "Name:              " ++ model_name ++ "\n" ++
  TERMINAL_BULLET ++ "Max Tokens:        " ++ toString model_max_tokens ++ "\n" ++
  TERMINAL_BULLET ++ "Temperature:       " ++ model_temperature ++ "\n" ++
  TERMINAL_BULLET ++ "Streaming Enabled: " ++ py_str_bool model_streaming_enabled ++ "\n"

/-- The full text written to the log file by `save_chat_log_to_file`: the
header writes, the lone `file.write('\n')`, then the history rows. -/
def chat_log_content (application_name application_version model_name : String)
    (model_max_tokens : Nat) (model_temperature : String)
    (model_streaming_enabled : Bool) (history : List Message)
    (include_system_prompt_enabled : Bool) : String :=
  chat_log_header application_name application_version model_name
    model_max_tokens model_temperature model_streaming_enabled ++
  "\n" ++
  write_history_rows history 0 include_system_prompt_enabled

/-- The shutdown call at the end of `main_loop`:
`save_chat_log_to_file ( application, model, include_system_prompt_enabled = False )`,
with the configuration values from `application_initialize`. -/
def main_loop_final_save (st : LoopState) : String :=
  chat_log_content application_name_default application_version_default
    model_name_default model_max_tokens_default model_temperature_default
    model_streaming_enabled_default st.history false

/-! Auxiliary environment descriptions used to state the claims. -/

/-- A script in which every gateway call succeeds, turn by turn. -/
def script_of (turns : List (String × List String)) : List (String × GatewayOutcome) :=
  turns.map (fun turn => (turn.1, GatewayOutcome.ok turn.2))

/-- The user/assistant message pairs a list of successful ordinary turns
appends to the conversation history, in order. -/
def turn_messages : List (String × List String) → List Message
  | [] => []
  | (user_input, fragments) :: rest =>
    { role := MODEL_MESSAGE_ROLE_USER, content := some user_input } ::
    { role := MODEL_MESSAGE_ROLE_AI, content := some (concat_strings fragments) } ::
    turn_messages rest

/-! Helper lemmas. -/

/-- Unfolding the streaming accumulation loop: starting from any accumulator,
the final text is the accumulator followed by the concatenation of all
fragments (empty fragments are skipped by the loop but contribute nothing to
a concatenation anyway), and the printed chunks are exactly the non-empty
fragments in order. -/
lemma render_streamed_foldl (fragments : List String) (a : String) (p : List String) :
    fragments.foldl render_streamed_body (a, p) =
    (a ++ concat_strings fragments, p ++ fragments.filter (fun c => c != "")) := by
  induction fragments generalizing a p with
  | nil => simp [concat_strings]
  | cons c rest ih =>
    by_cases hc : c = ""
    · subst hc
      rw [List.foldl_cons, show render_streamed_body (a, p) "" = (a, p) by simp [render_streamed_body], ih]
      simp [concat_strings]
    · rw [List.foldl_cons,
        show render_streamed_body (a, p) c = (a ++ c, p ++ [c]) by simp [render_streamed_body, hc], ih]
      simp [concat_strings, hc, String.append_assoc]

/-- The renderer's value on a successfully streamed response. -/
lemma render_streamed_eq (fragments : List String) :
    render_streamed fragments =
      (concat_strings fragments, fragments.filter (fun c => c != "")) := by
  simp [render_streamed, render_streamed_foldl]

/-- Executing a command never touches the conversation history. -/
lemma execute_application_command_history (st : LoopState) :
    (execute_application_command st).history = st.history := by
  simp only [execute_application_command]
  split <;> rfl

/-- A loop iteration whose input is ordinary chat content and whose gateway
call succeeds: the user message and the aggregated assistant message are
appended, the application state is unchanged, the command ends reset. -/
lemma main_loop_step_none (st : LoopState) (user_input : String) (fragments : List String)
    (hc : get_application_command user_input = APPLICATION_COMMAND_NONE) :
    main_loop_step st user_input (GatewayOutcome.ok fragments) =
      Except.ok
        { command := APPLICATION_COMMAND_NONE, state := st.state,
          history := st.history ++
            [{ role := MODEL_MESSAGE_ROLE_USER, content := some user_input },
             { role := MODEL_MESSAGE_ROLE_AI, content := some (concat_strings fragments) }] } := by
  simp [main_loop_step, hc, query_language_model, render_language_model_response,
    model_streaming_enabled_default, render_streamed_eq, execute_application_command,
    add_message_to_conversation_history, APPLICATION_COMMAND_NONE, APPLICATION_COMMAND_EXIT]

/-- A loop iteration whose input is classified as `EXIT`: the history is
untouched, the state becomes `STOPPED`, the command ends reset. -/
lemma main_loop_step_exit (st : LoopState) (user_input : String) (gw : GatewayOutcome)
    (hc : get_application_command user_input = APPLICATION_COMMAND_EXIT) :
    main_loop_step st user_input gw =
      Except.ok
        { command := APPLICATION_COMMAND_NONE, state := APPLICATION_STATE_STOPPED,
          history := st.history } := by
  simp [main_loop_step, hc, execute_application_command,
    APPLICATION_COMMAND_NONE, APPLICATION_COMMAND_EXIT]

/-- A loop iteration whose input is classified as `CLEAR_TERMINAL`: beyond
the terminal side effect, the history and state are untouched and the
command ends reset. -/
lemma main_loop_step_clear (st : LoopState) (user_input : String) (gw : GatewayOutcome)
    (hc : get_application_command user_input = APPLICATION_COMMAND_CLEAR_TERMINAL) :
    main_loop_step st user_input gw =
      Except.ok
        { command := APPLICATION_COMMAND_NONE, state := st.state,
          history := st.history } := by
  simp [main_loop_step, hc, execute_application_command, APPLICATION_COMMAND_NONE,
    APPLICATION_COMMAND_EXIT, APPLICATION_COMMAND_CLEAR_TERMINAL]

/-- Once the application state has left `RUNNING`, the loop consumes no
further input. -/
lemma main_loop_run_not_running (st : LoopState) (script : List (String × GatewayOutcome))
    (h : st.state ≠ APPLICATION_STATE_RUNNING) :
    main_loop_run st script = Except.ok st := by
  cases script with
  | nil => rfl
  | cons turn rest => simp [main_loop_run, h]

/-- Splitting a script: the loop over `s1 ++ s2` is the loop over `s1`
followed, unless it crashed, by the loop over `s2`. -/
lemma main_loop_run_append (st : LoopState) (s1 s2 : List (String × GatewayOutcome)) :
    main_loop_run st (s1 ++ s2) =
      match main_loop_run st s1 with
      | Except.error e => Except.error e
      | Except.ok st' => main_loop_run st' s2 := by
  induction s1 generalizing st with
  | nil => rfl
  | cons turn rest ih =>
    obtain ⟨user_input, gw⟩ := turn
    by_cases hst : st.state = APPLICATION_STATE_RUNNING
    · simp only [List.cons_append, main_loop_run, hst, if_true]
      cases main_loop_step st user_input gw with
      | error e => rfl
      | ok st' => exact ih st'
    · simp [main_loop_run, hst, main_loop_run_not_running _ s2 hst]

/-- Whatever one loop iteration does — complete normally or crash — the
prior conversation history is a prefix of the resulting one. -/
lemma main_loop_step_history_extends (st : LoopState) (user_input : String) (gw : GatewayOutcome) :
    st.history <+: (except_state (main_loop_step st user_input gw)).history := by
  unfold main_loop_step
  by_cases hc : get_application_command user_input = APPLICATION_COMMAND_NONE
  · simp only [hc, if_true]
    cases hr : render_language_model_response model_streaming_enabled_default (query_language_model gw) with
    | none =>
        simp [except_state, add_message_to_conversation_history]
    | some rendered =>
        simp [except_state, execute_application_command_history, add_message_to_conversation_history,
          List.append_assoc]
  · simp [hc, except_state, execute_application_command_history]

/-- Over any script, the conversation history only ever grows at the end:
the starting history is a prefix of the final one, also when the run ends in
a crash. -/
lemma main_loop_run_history_extends (script : List (String × GatewayOutcome)) (st : LoopState) :
    st.history <+: (run_final st script).history := by
  induction script generalizing st with
  | nil => exact List.prefix_refl _
  | cons turn rest ih =>
    obtain ⟨user_input, gw⟩ := turn
    by_cases hst : st.state = APPLICATION_STATE_RUNNING
    · have hstep := main_loop_step_history_extends st user_input gw
      cases hs : main_loop_step st user_input gw with
      | error e =>
          rw [hs] at hstep
          simpa [run_final, main_loop_run, hst, hs, except_state] using hstep
      | ok st' =>
          rw [hs] at hstep
          simp only [except_state] at hstep
          have : run_final st ((user_input, gw) :: rest) = run_final st' rest := by
            simp [run_final, main_loop_run, hst, hs]
          rw [this]
          exact hstep.trans (ih st')
    · simp [run_final, main_loop_run_not_running st _ hst, except_state]

/-- If a list starts with the singleton prefix `[a]`, its head is `a`. -/
lemma head_of_singleton_prefix {α : Type} (a : α) (l : List α) (h : [a] <+: l) :
    l.head? = some a := by
  obtain ⟨t, rfl⟩ := h
  rfl

/-- Running the loop over successful ordinary-content turns: every turn
appends its user/assistant pair, and the loop keeps running. -/
lemma main_loop_run_none_turns (turns : List (String × List String)) :
    ∀ st : LoopState, st.state = APPLICATION_STATE_RUNNING →
    (∀ p ∈ turns, get_application_command p.1 = APPLICATION_COMMAND_NONE) →
    ∃ st', main_loop_run st (script_of turns) = Except.ok st' ∧
      st'.state = APPLICATION_STATE_RUNNING ∧
      st'.history = st.history ++ turn_messages turns := by
  induction turns with
  | nil =>
    intro st hst _
    exact ⟨st, rfl, hst, by simp [turn_messages]⟩
  | cons turn rest ih =>
    intro st hst hcmd
    obtain ⟨user_input, fragments⟩ := turn
    have hc : get_application_command user_input = APPLICATION_COMMAND_NONE :=
      hcmd _ (List.mem_cons_self _ _)
    have hstep := main_loop_step_none st user_input fragments hc
    rw [hst] at hstep
    obtain ⟨st', hrun, hstate, hhist⟩ :=
      ih { command := APPLICATION_COMMAND_NONE, state := APPLICATION_STATE_RUNNING,
           history := st.history ++
             [{ role := MODEL_MESSAGE_ROLE_USER, content := some user_input },
              { role := MODEL_MESSAGE_ROLE_AI, content := some (concat_strings fragments) }] }
        rfl (fun p hp => hcmd p (List.mem_cons_of_mem _ hp))
    refine ⟨st', ?_, hstate, ?_⟩
    · simp only [script_of] at hrun
      simp [script_of, main_loop_run, hst, hstep, hrun]
    · rw [hhist]
      simp [turn_messages, List.append_assoc]

/-- The number of messages contributed by a list of ordinary turns. -/
lemma turn_messages_length (turns : List (String × List String)) :
    (turn_messages turns).length = 2 * turns.length := by
  induction turns with
  | nil => rfl
  | cons turn rest ih =>
    obtain ⟨user_input, fragments⟩ := turn
    simp [turn_messages, ih]
    ring

/-- From any positive row index on, the row-writing loop writes every row. -/
lemma write_history_rows_pos (history : List Message) (k : Nat) (flag : Bool) :
    write_history_rows history (k + 1) flag =
      concat_strings (history.map format_message) := by
  induction history generalizing k with
  | nil => rfl
  | cons row rest ih =>
    simp [write_history_rows, concat_strings, ih]

/-- Starting at row index 0, the loop writes all rows when the system prompt
is included, and all rows but the first otherwise. -/
lemma write_history_rows_zero (history : List Message) (flag : Bool) :
    write_history_rows history 0 flag =
      concat_strings ((if flag then history else history.drop 1).map format_message) := by
  cases history with
  | nil => cases flag <;> rfl
  | cons row rest =>
    cases flag with
    | true =>
      simp [write_history_rows, write_history_rows_pos, concat_strings]
    | false =>
      simp [write_history_rows, write_history_rows_pos, concat_strings]

/-- Characterisation of the filename probe, given enough fuel to reach a
free index: the selected index is free, and every smaller index (from the
starting point) is occupied. -/
lemma probe_file_index_spec (occupied : List Nat) :
    ∀ (fuel start : Nat), (∃ j, start ≤ j ∧ j < start + fuel ∧ j ∉ occupied) →
    probe_file_index occupied fuel start ∉ occupied ∧
    ∀ k, start ≤ k → k < probe_file_index occupied fuel start → k ∈ occupied := by
  intro fuel
  induction fuel with
  | zero =>
    intro start h
    obtain ⟨j, h1, h2, _⟩ := h
    omega
  | succ fuel ih =>
    intro start h
    by_cases hs : start ∈ occupied
    · have hnext : ∃ j, start + 1 ≤ j ∧ j < start + 1 + fuel ∧ j ∉ occupied := by
        obtain ⟨j, h1, h2, h3⟩ := h
        have : j ≠ start := fun hj => h3 (hj ▸ hs)
        exact ⟨j, by omega, by omega, h3⟩
      obtain ⟨hfree, hall⟩ := ih (start + 1) hnext
      simp only [probe_file_index, if_pos hs]
      refine ⟨hfree, fun k hk1 hk2 => ?_⟩
      rcases Nat.eq_or_lt_of_le hk1 with hk | hk
      · exact hk ▸ hs
      · exact hall k hk hk2
    · simp only [probe_file_index, if_neg hs]
      exact ⟨hs, fun k hk1 hk2 => absurd (lt_of_le_of_lt hk1 hk2) (lt_irrefl _)⟩

/-- Pigeonhole: among the indices `0 .. occupied.length` at least one is not
in `occupied`. -/
lemma exists_free_index (occupied : List Nat) :
    ∃ j, j ≤ occupied.length ∧ j ∉ occupied := by
  by_contra hcon
  push_neg at hcon
  have hsub : Finset.range (occupied.length + 1) ⊆ occupied.toFinset := by
    intro j hj
    rw [Finset.mem_range] at hj
    rw [List.mem_toFinset]
    exact hcon j (by omega)
  have hcard := Finset.card_le_card hsub
  rw [Finset.card_range] at hcard
  have := occupied.toFinset_card_le
  omega

/-- The index selected by `save_chat_log_to_file` is the least free one. -/
lemma next_log_file_index_spec (occupied : List Nat) :
    next_log_file_index occupied ∉ occupied ∧
    ∀ k, k < next_log_file_index occupied → k ∈ occupied := by
  obtain ⟨j, hj1, hj2⟩ := exists_free_index occupied
  obtain ⟨hfree, hall⟩ :=
    probe_file_index_spec occupied (occupied.length + 1) 0 ⟨j, Nat.zero_le _, by omega, hj2⟩
  exact ⟨hfree, fun k hk => hall k (Nat.zero_le _) hk⟩

/-- Invariant preserved by the loop: the history is non-empty and every
message after the first carries the `user` or `assistant` role. -/
def history_tail_roles_ok (st : LoopState) : Prop :=
  st.history ≠ [] ∧
  ∀ m ∈ st.history.drop 1,
    m.role = MODEL_MESSAGE_ROLE_USER ∨ m.role = MODEL_MESSAGE_ROLE_AI

/-- One iteration preserves the tail-roles invariant, whether it completes
or crashes. -/
lemma main_loop_step_tail_roles (st : LoopState) (user_input : String) (gw : GatewayOutcome)
    (h : history_tail_roles_ok st) :
    history_tail_roles_ok (except_state (main_loop_step st user_input gw)) := by
  obtain ⟨hne, hroles⟩ := h
  have hlen : 1 ≤ st.history.length := List.length_pos.mpr hne
  have happend : ∀ extra : List Message,
      (∀ m ∈ extra, m.role = MODEL_MESSAGE_ROLE_USER ∨ m.role = MODEL_MESSAGE_ROLE_AI) →
      st.history ++ extra ≠ [] ∧
      ∀ m ∈ (st.history ++ extra).drop 1,
        m.role = MODEL_MESSAGE_ROLE_USER ∨ m.role = MODEL_MESSAGE_ROLE_AI := by
    intro extra hextra
    constructor
    · simp [hne]
    · intro m hm
      rw [List.drop_append_of_le_length hlen] at hm
      rcases List.mem_append.mp hm with hmem | hmem
      · exact hroles m hmem
      · exact hextra m hmem
  unfold main_loop_step
  by_cases hc : get_application_command user_input = APPLICATION_COMMAND_NONE
  · simp only [hc, if_true]
    cases hr : render_language_model_response model_streaming_enabled_default (query_language_model gw) with
    | none =>
        simp only [except_state, history_tail_roles_ok, add_message_to_conversation_history]
        exact happend _ (by intro m hm; simp at hm; subst hm; left; rfl)
    | some rendered =>
        simp only [except_state, history_tail_roles_ok, execute_application_command_history,
          add_message_to_conversation_history, List.append_assoc]
        exact happend _ (by
          intro m hm
          simp at hm
          rcases hm with hm | hm
          · subst hm; left; rfl
          · subst hm; right; rfl)
  · simp only [hc, if_false, except_state, history_tail_roles_ok,
      execute_application_command_history]
    exact ⟨hne, hroles⟩

/-- The whole loop preserves the tail-roles invariant on normal
completion. -/
lemma main_loop_run_tail_roles (script : List (String × GatewayOutcome)) :
    ∀ st st' : LoopState, main_loop_run st script = Except.ok st' →
    history_tail_roles_ok st → history_tail_roles_ok st' := by
  induction script with
  | nil =>
    intro st st' hrun h
    cases hrun
    exact h
  | cons turn rest ih =>
    intro st st' hrun h
    obtain ⟨user_input, gw⟩ := turn
    by_cases hst : st.state = APPLICATION_STATE_RUNNING
    · simp only [main_loop_run, hst, if_true] at hrun
      cases hs : main_loop_step st user_input gw with
      | error e => rw [hs] at hrun; cases hrun
      | ok st1 =>
          rw [hs] at hrun
          have := main_loop_step_tail_roles st user_input gw h
          rw [hs] at this
          exact ih st1 st' hrun this
    · simp only [main_loop_run, hst, if_false] at hrun
      cases hrun
      exact h

/-! Claim theorems. -/

/-- C1 (refuting evaluation): on a turn whose gateway call raises an
exception, the caught exception is returned as an error *string*, and the
streaming renderer then iterates that string and dereferences `.choices` on
a character — an uncaught `AttributeError`. The loop iteration therefore
crashes (`Except.error`): at that point the user message has been appended
but no `assistant`-role message ever is, and the session does not continue.
The claim that exactly one assistant message is appended and the session
keeps running fails on the code, although it matches the evident intent of
`query_language_model`'s `except` branch. -/
theorem claim_C1_gateway_failure :
    main_loop_step (main_loop_init (some "You are a helpful assistant."))
        "hello" (GatewayOutcome.exn "Connection error.") =
      Except.error
        { command := APPLICATION_COMMAND_NONE, state := APPLICATION_STATE_RUNNING,
          history :=
            [{ role := MODEL_MESSAGE_ROLE_SYSTEM, content := some "You are a helpful assistant." },
             { role := MODEL_MESSAGE_ROLE_USER, content := some "hello" }] } ∧
    ∀ m ∈ ([{ role := MODEL_MESSAGE_ROLE_SYSTEM, content := some "You are a helpful assistant." },
            { role := MODEL_MESSAGE_ROLE_USER, content := some "hello" }] : List Message),
      m.role ≠ MODEL_MESSAGE_ROLE_AI :=
  ⟨rfl, by decide⟩

/-- C2 (refuting evaluation): when the system-prompt file cannot be read,
`load_text_to_string` returns Python `None`, and the guard
`model_system_prompt == ''` is `False` for `None`, so the hardcoded default
is NOT substituted: the system message's content is `None`. The default is
used only when the file exists and is empty. This contradicts both the claim
and the source's own comment ("If a system prompt can not be loaded from the
file, then just use the default system prompt"). -/
theorem claim_C2_default_system_prompt :
    (main_loop_init none).history =
      [{ role := MODEL_MESSAGE_ROLE_SYSTEM, content := none }] ∧
    (∀ m ∈ (main_loop_init none).history, m.content ≠ some MODEL_SYSTEM_PROMPT_DEFAULT) ∧
    (main_loop_init (some "")).history =
      [{ role := MODEL_MESSAGE_ROLE_SYSTEM, content := some MODEL_SYSTEM_PROMPT_DEFAULT }] :=
  ⟨rfl, by decide, rfl⟩

/-- C3: for any run of `N` ordinary (command `NONE`) inputs whose gateway
calls succeed, the loop completes all `N` turns, and the conversation
history is the system message followed by one user/assistant pair per turn
in input order — in particular its length is `1 + 2N`. -/
theorem claim_C3_history_length (load_result : Option String)
    (turns : List (String × List String))
    (hcmd : ∀ p ∈ turns, get_application_command p.1 = APPLICATION_COMMAND_NONE) :
    ∃ st', main_loop_run (main_loop_init load_result) (script_of turns) = Except.ok st' ∧
      st'.history = (main_loop_init load_result).history ++ turn_messages turns ∧
      st'.history.length = 1 + 2 * turns.length := by
  obtain ⟨st', hrun, _, hhist⟩ :=
    main_loop_run_none_turns turns (main_loop_init load_result) rfl hcmd
  refine ⟨st', hrun, hhist, ?_⟩
  rw [hhist]
  simp [main_loop_init, add_message_to_conversation_history, turn_messages_length]
  omega

/-- Witness for C3 at a concrete one-turn session. -/
theorem claim_C3_history_length_witness :
    (∀ p ∈ ([("hello", ["Hi", " there", "!"])] : List (String × List String)),
      get_application_command p.1 = APPLICATION_COMMAND_NONE) ∧
    ∃ st', main_loop_run (main_loop_init (some "Be brief."))
        (script_of [("hello", ["Hi", " there", "!"])]) = Except.ok st' ∧
      st'.history = (main_loop_init (some "Be brief.")).history ++
        turn_messages [("hello", ["Hi", " there", "!"])] ∧
      st'.history.length = 1 + 2 * ([("hello", ["Hi", " there", "!"])] : List (String × List String)).length :=
  ⟨by decide,
   claim_C3_history_length (some "Be brief.") [("hello", ["Hi", " there", "!"])] (by decide)⟩

/-- C4: for a non-empty streamed fragment sequence, the renderer returns
exactly the concatenation of all fragments in arrival order, and prints
exactly the non-empty fragments in order (empty fragments are skipped in
display without affecting the returned concatenation). -/
theorem claim_C4_fragment_concat (fragments : List String) (_hne : fragments ≠ []) :
    render_language_model_response model_streaming_enabled_default
        (GatewayResult.streamed fragments) =
      some (concat_strings fragments, fragments.filter (fun c => c != "")) := by
  simp [render_language_model_response, model_streaming_enabled_default, render_streamed_eq]

/-- Witness for C4 on a fragment list containing an empty fragment. -/
theorem claim_C4_fragment_concat_witness :
    (["Hi", "", " there", "!"] : List String) ≠ [] ∧
    render_language_model_response model_streaming_enabled_default
        (GatewayResult.streamed ["Hi", "", " there", "!"]) =
      some (concat_strings ["Hi", "", " there", "!"],
        (["Hi", "", " there", "!"] : List String).filter (fun c => c != "")) :=
  ⟨by decide, claim_C4_fragment_concat ["Hi", "", " there", "!"] (by decide)⟩

/-- C5: the log-filename probe starting at suffix 0 selects an index whose
file does not exist (so no existing file is overwritten), every smaller
index is occupied (first-gap allocation), hence in particular a free index 0
is always reused; concretely, with file 0 deleted and file 1 present the
next run writes to index 0. -/
theorem claim_C5_first_gap_allocation :
    (∀ occupied : List Nat,
      next_log_file_index occupied ∉ occupied ∧
      (∀ j, j < next_log_file_index occupied → j ∈ occupied) ∧
      (0 ∉ occupied → next_log_file_index occupied = 0)) ∧
    next_log_file_index [1] = 0 := by
  constructor
  · intro occupied
    obtain ⟨hfree, hall⟩ := next_log_file_index_spec occupied
    refine ⟨hfree, hall, fun h0 => ?_⟩
    by_contra hne
    exact h0 (hall 0 (Nat.pos_of_ne_zero hne))
  · rfl

/-- Witness for C5 in the deleted-index-0 scenario. -/
theorem claim_C5_first_gap_allocation_witness :
    (0 ∉ ([1] : List Nat)) ∧ next_log_file_index [1] = 0 :=
  ⟨by decide, (claim_C5_first_gap_allocation.1 [1]).2.2 (by decide)⟩

/-- C6: for any input script — including the empty one — and however far the
session got (normal turn, stop, or even a crash), the conversation history
after any initial segment of the script is a prefix of the history after the
whole script (no element is ever removed or reordered), and its first
element is always the system message built at initialisation. -/
theorem claim_C6_system_first_invariant (load_result : Option String)
    (s1 s2 : List (String × GatewayOutcome)) :
    (run_final (main_loop_init load_result) s1).history <+:
      (run_final (main_loop_init load_result) (s1 ++ s2)).history ∧
    (run_final (main_loop_init load_result) (s1 ++ s2)).history.head? =
      some { role := MODEL_MESSAGE_ROLE_SYSTEM, content := system_prompt_of load_result } := by
  constructor
  · simp only [run_final]
    rw [main_loop_run_append]
    cases hrun : main_loop_run (main_loop_init load_result) s1 with
    | error e =>
        simp [run_final, hrun, except_state]
    | ok st' =>
        simp only [run_final, hrun, except_state]
        simpa [run_final] using main_loop_run_history_extends s2 st'
  · apply head_of_singleton_prefix
    have h1 : (main_loop_init load_result).history =
        [{ role := MODEL_MESSAGE_ROLE_SYSTEM, content := system_prompt_of load_result }] := rfl
    have h2 := main_loop_run_history_extends (s1 ++ s2) (main_loop_init load_result)
    rw [h1] at h2
    exact h2

/-- C7: command classification is an exact, case-insensitive match on the
full input line: `EXIT` exactly when the lowered input is `"exit"`,
`CLEAR_TERMINAL` exactly when it is `"clear"`, `NONE` otherwise — so
`" exit"` with leading whitespace is ordinary chat content — and an input
classified `EXIT` drives the run state to `STOPPED` with the history
untouched. -/
theorem claim_C7_command_classification :
    (∀ s : String,
      get_application_command s = APPLICATION_COMMAND_EXIT ↔ py_lower s = PROMPT_COMMAND_EXIT) ∧
    (∀ s : String,
      get_application_command s = APPLICATION_COMMAND_CLEAR_TERMINAL ↔
        py_lower s = PROMPT_COMMAND_CLEAR) ∧
    (∀ s : String,
      get_application_command s = APPLICATION_COMMAND_NONE ↔
        (py_lower s ≠ PROMPT_COMMAND_EXIT ∧ py_lower s ≠ PROMPT_COMMAND_CLEAR)) ∧
    get_application_command " exit" = APPLICATION_COMMAND_NONE ∧
    (∀ (st : LoopState) (user_input : String) (gw : GatewayOutcome),
      get_application_command user_input = APPLICATION_COMMAND_EXIT →
      main_loop_step st user_input gw =
        Except.ok
          { command := APPLICATION_COMMAND_NONE, state := APPLICATION_STATE_STOPPED,
            history := st.history }) := by
  refine ⟨?_, ?_, ?_, by decide, fun st user_input gw h => main_loop_step_exit st user_input gw h⟩
  all_goals
    intro s
    simp only [get_application_command, PROMPT_COMMAND_EXIT, PROMPT_COMMAND_CLEAR,
      APPLICATION_COMMAND_EXIT, APPLICATION_COMMAND_CLEAR_TERMINAL, APPLICATION_COMMAND_NONE]
    by_cases h1 : py_lower s = "exit"
    · simp [h1]
    · by_cases h2 : py_lower s = "clear"
      · simp [h1, h2]
      · simp [h1, h2]

/-- Witness for C7 at concrete inputs of varying case. -/
theorem claim_C7_command_classification_witness :
    get_application_command "ExIt" = APPLICATION_COMMAND_EXIT ∧
    get_application_command "CLEAR" = APPLICATION_COMMAND_CLEAR_TERMINAL ∧
    get_application_command " exit" = APPLICATION_COMMAND_NONE ∧
    main_loop_step (main_loop_init none) "ExIt" (GatewayOutcome.ok []) =
      Except.ok
        { command := APPLICATION_COMMAND_NONE, state := APPLICATION_STATE_STOPPED,
          history := (main_loop_init none).history } :=
  ⟨(claim_C7_command_classification.1 "ExIt").mpr (by decide),
   (claim_C7_command_classification.2.1 "CLEAR").mpr (by decide),
   claim_C7_command_classification.2.2.2.1,
   claim_C7_command_classification.2.2.2.2 (main_loop_init none) "ExIt" (GatewayOutcome.ok [])
     ((claim_C7_command_classification.1 "ExIt").mpr (by decide))⟩

/-- C8: an iteration whose input is classified as the clear command leaves
the conversation history and its length unchanged, keeps the run state at
`RUNNING`, and ends with the pending command reset to `NONE` (the clear
itself is only a terminal side effect). -/
theorem claim_C8_clear_command_frame (st : LoopState) (user_input : String) (gw : GatewayOutcome)
    (hclear : get_application_command user_input = APPLICATION_COMMAND_CLEAR_TERMINAL)
    (hrunning : st.state = APPLICATION_STATE_RUNNING) :
    main_loop_step st user_input gw =
      Except.ok
        { command := APPLICATION_COMMAND_NONE, state := APPLICATION_STATE_RUNNING,
          history := st.history } ∧
    (except_state (main_loop_step st user_input gw)).history.length = st.history.length := by
  have h := main_loop_step_clear st user_input gw hclear
  rw [hrunning] at h
  refine ⟨h, ?_⟩
  rw [h]
  rfl

/-- Witness for C8 on a fresh session receiving `"Clear"`. -/
theorem claim_C8_clear_command_frame_witness :
    get_application_command "Clear" = APPLICATION_COMMAND_CLEAR_TERMINAL ∧
    (main_loop_init none).state = APPLICATION_STATE_RUNNING ∧
    (main_loop_step (main_loop_init none) "Clear" (GatewayOutcome.ok []) =
      Except.ok
        { command := APPLICATION_COMMAND_NONE, state := APPLICATION_STATE_RUNNING,
          history := (main_loop_init none).history } ∧
    (except_state (main_loop_step (main_loop_init none) "Clear" (GatewayOutcome.ok []))).history.length =
      (main_loop_init none).history.length) :=
  ⟨by decide, rfl,
   claim_C8_clear_command_frame (main_loop_init none) "Clear" (GatewayOutcome.ok [])
     (by decide) rfl⟩

/-- C9: the saved chat log is exactly the fixed-format header block (model
name, max tokens, temperature, streaming flag, plus application name and
version), then one blank line, then each message rendered as
`[role]\n<content>\n\n` in history order — all of them when the
system-prompt flag is set, all but the first otherwise. -/
theorem claim_C9_chat_log_format (application_name application_version model_name : String)
    (model_max_tokens : Nat) (model_temperature : String) (model_streaming_enabled : Bool)
    (history : List Message) (include_system_prompt_enabled : Bool) :
    chat_log_content application_name application_version model_name model_max_tokens
        model_temperature model_streaming_enabled history include_system_prompt_enabled =
      chat_log_header application_name application_version model_name model_max_tokens
        model_temperature model_streaming_enabled ++ "\n" ++
      concat_strings
        ((if include_system_prompt_enabled then history else history.drop 1).map format_message) := by
  rw [chat_log_content, write_history_rows_zero]

/-- C10: `main_loop` always saves with `include_system_prompt_enabled =
False`, so whatever state a session ends in, the written log is the header,
the blank line, and exactly the non-first messages of the conversation
history — and no message with the `system` role ever appears in that dump. -/
theorem claim_C10_save_excludes_system_prompt (load_result : Option String)
    (script : List (String × GatewayOutcome)) (st' : LoopState)
    (hrun : main_loop_run (main_loop_init load_result) script = Except.ok st') :
    main_loop_final_save st' =
      chat_log_header application_name_default application_version_default model_name_default
        model_max_tokens_default model_temperature_default model_streaming_enabled_default ++
      "\n" ++ concat_strings ((st'.history.drop 1).map format_message) ∧
    ∀ m ∈ st'.history.drop 1, m.role ≠ MODEL_MESSAGE_ROLE_SYSTEM := by
  constructor
  · rw [main_loop_final_save, chat_log_content, write_history_rows_zero]
    simp
  · have hinit : history_tail_roles_ok (main_loop_init load_result) := by
      constructor
      · simp [main_loop_init, add_message_to_conversation_history]
      · simp [main_loop_init, add_message_to_conversation_history]
    have hinv := main_loop_run_tail_roles script (main_loop_init load_result) st' hrun hinit
    intro m hm
    rcases hinv.2 m hm with h | h <;> rw [h] <;> decide

/-- Witness for C10 on the session whose first input is `exit`. -/
theorem claim_C10_save_excludes_system_prompt_witness :
    main_loop_run (main_loop_init none) [("exit", GatewayOutcome.ok [])] =
      Except.ok
        { command := APPLICATION_COMMAND_NONE, state := APPLICATION_STATE_STOPPED,
          history := [{ role := MODEL_MESSAGE_ROLE_SYSTEM, content := none }] } ∧
    (main_loop_final_save
        { command := APPLICATION_COMMAND_NONE, state := APPLICATION_STATE_STOPPED,
          history := [{ role := MODEL_MESSAGE_ROLE_SYSTEM, content := none }] } =
      chat_log_header application_name_default application_version_default model_name_default
        model_max_tokens_default model_temperature_default model_streaming_enabled_default ++
      "\n" ++ concat_strings
        ((([{ role := MODEL_MESSAGE_ROLE_SYSTEM, content := none }] : List Message).drop 1).map
          format_message) ∧
    ∀ m ∈ ([{ role := MODEL_MESSAGE_ROLE_SYSTEM, content := none }] : List Message).drop 1,
      m.role ≠ MODEL_MESSAGE_ROLE_SYSTEM) :=
  ⟨rfl,
   claim_C10_save_excludes_system_prompt none [("exit", GatewayOutcome.ok [])]
     { command := APPLICATION_COMMAND_NONE, state := APPLICATION_STATE_STOPPED,
       history := [{ role := MODEL_MESSAGE_ROLE_SYSTEM, content := none }] } rfl⟩

end ConversationAgent
